import Mathlib

/-!
Verification development for the f110 final-project local planner
(`src/planner/src/planner.cpp`, `src/planner/include/mpc_tracker.h`).

The C++ core is embedded shallowly over `ℚ`:
- `double` values become `ℚ`; math-library calls (`cos`, `sin`, `tan`,
  `sqrt`) are passed in as function parameters, since they are external
  library collaborators of the code under verification;
- the occupancy-grid `data` array is modelled as a total valuation
  `Int → Int` over cell indices, so that the source's unchecked writes
  at computed indices (including out-of-range ones) are observable;
- `size_t` wrap-around is modelled by reduction modulo `2 ^ 64`;
- `static_cast<int>` of a floating value truncates toward zero
  (`truncQ`), and C `round` rounds half away from zero (`roundC`);
- the unboundedly looping gap search is given fuel; `none` means the
  fuel was exhausted, and a result of `none` for every fuel value means
  the source loop never terminates.
-/

/-- Occupancy-grid metadata of `input_map_.info` together with the
inflation radius used by `expandObstacles`. -/
structure GridCfg where
  width : Int
  height : Int
  originX : ℚ
  originY : ℚ
  resolution : ℚ
  inflation_r : Int

/-- Planar rigid transform: cosine/sine of the yaw extracted by
`tf2::Matrix3x3::getRPY` plus the translation, as consumed by
`updateStaticMap` (planner.cpp:296-322). -/
structure Tf where
  c : ℚ
  s : ℚ
  tx : ℚ
  ty : ℚ

/-- One laser range reading: NaN, infinite, or a finite value. -/
inductive RangeVal where
  | nan : RangeVal
  | inf : RangeVal
  | val : ℚ → RangeVal
deriving DecidableEq

/-- The fields of `sensor_msgs::LaserScan` consumed by the planner. -/
structure Scan where
  ranges : List RangeVal
  angle_min : ℚ
  angle_increment : ℚ

/-- Persistent map-update state of the `Planner` object:
`input_map_.data`, `new_obstacles_`, `clear_obstacles_count_`. -/
structure MapState where
  grid : Int → Int
  pending : List Int
  counter : Int

/-- Result of one `updateStaticMap` call: the new persistent state, the
retained laser-to-map transform, and the grid published on `/cost_map`
by that call (`none` would mean nothing was published). -/
structure UpdateResult where
  grid : Int → Int
  pending : List Int
  counter : Int
  tf : Tf
  published : Option (Int → Int)

/-- Truncation toward zero, the semantics of `static_cast<int>` applied
to a floating-point value. -/
def truncQ (q : ℚ) : Int := if 0 ≤ q then ⌊q⌋ else -⌊-q⌋

/-- C `round`: round half away from zero. -/
def roundC (q : ℚ) : Int := if 0 ≤ q then ⌊q + 1/2⌋ else -⌊-q + 1/2⌋

/-- Reduction modulo `2 ^ 64`, modelling conversion to `size_t`. -/
def wrap64 (z : Int) : Int := z % (2 ^ 64)

/-- Helper for `intRange`: count down the remaining length while the
current value counts up. -/
def intRangeGo : Nat → Int → List Int
  | 0, _ => []
  | n + 1, x => x :: intRangeGo n (x + 1)

/-- Integers `a, a+1, …, b-1`, the index space of a C `for (i=a; i<b; i++)`. -/
def intRange (a b : Int) : List Int := intRangeGo (b - a).toNat a

/-- Pointwise update of the grid valuation at one cell index. -/
def updateF (g : Int → Int) (i v : Int) : Int → Int := fun j => if j = i then v else g j

/-- Embedding of `Planner::expandObstacles` (planner.cpp:353-374): cell
index of the hit by truncating `(point - origin) / resolution`, then the
square inflation window `[idx - inflation_r, idx + inflation_r)` in both
axes, each cell flattened as `j * width + i`. No clamping is performed.
(The stray re-read of the waypoint file at planner.cpp:360-363 does not
contribute to the returned index list and is omitted.) -/
def expandObstacles (cfg : GridCfg) (x_map y_map : ℚ) : List Int :=
  let x_map_idx := truncQ ((x_map - cfg.originX) / cfg.resolution)
  let y_map_idx := truncQ ((y_map - cfg.originY) / cfg.resolution)
  (intRange (x_map_idx - cfg.inflation_r) (x_map_idx + cfg.inflation_r)).flatMap
    (fun i => (intRange (y_map_idx - cfg.inflation_r) (y_map_idx + cfg.inflation_r)).map
      (fun j => j * cfg.width + i))

/-- Map-frame projection of one hit (planner.cpp:318-324): sensor-frame
point `(r cos θ, r sin θ)` rotated by the transform yaw and translated,
then inflated into cell indices by `expandObstacles`. -/
def hitPointCells (cfg : GridCfg) (cosF sinF : ℚ → ℚ) (tf : Tf) (r θ : ℚ) : List Int :=
  let x_base_link := r * cosF θ
  let y_base_link := r * sinF θ
  let x_map := x_base_link * tf.c - y_base_link * tf.s + tf.tx
  let y_map := x_base_link * tf.s + y_base_link * tf.c + tf.ty
  expandObstacles cfg x_map y_map

/-- Cell indices produced by the marking loop of `updateStaticMap`
(planner.cpp:313-335), in program order. NaN/infinite readings are
skipped by a `continue` placed before the `theta += angle_increment`
statement, so `θ` advances only on valid hits, exactly as in the
source. -/
def hitCells (cfg : GridCfg) (cosF sinF : ℚ → ℚ) (tf : Tf) (inc : ℚ) :
    List RangeVal → ℚ → List Int
  | [], _ => []
  | RangeVal.nan :: rs, θ => hitCells cfg cosF sinF tf inc rs θ
  | RangeVal.inf :: rs, θ => hitCells cfg cosF sinF tf inc rs θ
  | RangeVal.val r :: rs, θ =>
      hitPointCells cfg cosF sinF tf r θ ++ hitCells cfg cosF sinF tf inc rs (θ + inc)

/-- Restriction of the marking loop to the central window
`[size/6, 5*size/6)` of the scan with the matching starting angle
(planner.cpp:309-312), yielding all cell indices written this update. -/
def scanHitCells (cfg : GridCfg) (cosF sinF : ℚ → ℚ) (tf : Tf) (scan : Scan) : List Int :=
  let n := scan.ranges.length
  let start := n / 6
  let stop := 5 * n / 6
  let sub := (scan.ranges.drop start).take (stop - start)
  hitCells cfg cosF sinF tf scan.angle_increment sub
    (scan.angle_min + (start : ℚ) * scan.angle_increment)

/-- Marking of one cell (planner.cpp:326-333): a cell not already at 100
is set to 100 and appended to `new_obstacles_`; an already-occupied cell
is left alone and not re-appended. -/
def markCell (gp : (Int → Int) × List Int) (idx : Int) : (Int → Int) × List Int :=
  if gp.1 idx ≠ 100 then (updateF gp.1 idx 100, gp.2 ++ [idx]) else gp

/-- Marking of all cell indices produced by the scan, in program order. -/
def markAll (gp : (Int → Int) × List Int) (idxs : List Int) : (Int → Int) × List Int :=
  idxs.foldl markCell gp

/-- Decay reset (planner.cpp:340-343): every cell recorded in
`new_obstacles_` is written back to 0. -/
def resetAll (g : Int → Int) (idxs : List Int) : Int → Int :=
  idxs.foldl (fun g2 i => updateF g2 i 0) g

/-- Embedding of `Planner::updateStaticMap` (planner.cpp:284-351).
`lookup` is the outcome of the laser-to-map transform lookup: on failure
(`none`) the catch block only logs and sleeps, so the previous transform
is retained and the update continues with it. Then every valid hit of
the central scan window is inflated and marked, the decay counter is
incremented, the decay fires when the counter exceeds 50 (resetting all
pending cells to 0, clearing the list and zeroing the counter), and the
resulting grid is published unconditionally. -/
def updateStaticMap (cfg : GridCfg) (cosF sinF : ℚ → ℚ) (lookup : Option Tf) (prevTf : Tf)
    (scan : Scan) (st : MapState) : UpdateResult :=
  let tf := lookup.getD prevTf
  let gp := markAll (st.grid, st.pending) (scanHitCells cfg cosF sinF tf scan)
  let counter1 := st.counter + 1
  if counter1 > 50 then
    { grid := resetAll gp.1 gp.2, pending := [], counter := 0, tf := tf,
      published := some (resetAll gp.1 gp.2) }
  else
    { grid := gp.1, pending := gp.2, counter := counter1, tf := tf,
      published := some gp.1 }

/-- Scan-pipeline configuration of the `Planner` object: safety-bubble
radius, angle increment, gap thresholds, the truncation window fixed on
the first scan, and the maximum usable range. -/
structure ScanCfg where
  bubble_radius : ℚ
  angle_increment : ℚ
  gap_threshold : ℚ
  gap_size_threshold : ℚ
  start_idx : Nat
  end_idx : Nat
  max_scan : ℚ

/-- Range filtering of `scanCallback` (planner.cpp:208-222): NaN becomes
0, an infinite or over-range reading becomes `max_scan`, other values
pass through. -/
def filterRange (max_scan : ℚ) : RangeVal → ℚ
  | RangeVal.nan => 0
  | RangeVal.inf => max_scan
  | RangeVal.val r => if r > max_scan then max_scan else r

/-- Helper for `closestPoint`: fold carrying the index of the first
minimal element seen so far, matching `std::min_element`. -/
def closestPointAux : List ℚ → Nat → Nat → ℚ → Nat
  | [], _, bi, _ => bi
  | x :: xs, i, bi, bv =>
      if x < bv then closestPointAux xs (i + 1) i x else closestPointAux xs (i + 1) bi bv

/-- Embedding of `Planner::closestPoint` (planner.cpp:376-380): index of
the first minimum of the filtered ranges. -/
def closestPoint (l : List ℚ) : Nat :=
  match l with
  | [] => 0
  | x :: xs => closestPointAux xs 1 0 x

/-- In-place zeroing loop: element at position `k + i` is zeroed exactly
when the predicate holds of its index. -/
def zeroIdx (p : Nat → Bool) : Nat → List ℚ → List ℚ
  | _, [] => []
  | k, x :: xs => (if p k then 0 else x) :: zeroIdx p (k + 1) xs

/-- Embedding of `Planner::eliminateBubble` (planner.cpp:382-396). The
angular half-width `bubble_radius / closest_dist` is converted to index
units, rounded, and stored into `size_t` variables (modelled by
`wrap64 · |>.toNat`); the upper bound is clamped to `size - 1`, the
lower-bound check `start < 0` is retained verbatim even though it can
never fire on an unsigned value, and the loop zeroes the half-open index
interval `[start, end)`. -/
def eliminateBubble (cfg : ScanCfg) (scan_ranges : List ℚ) (closest_idx : Nat)
    (closest_dist : ℚ) : List ℚ :=
  let angle := cfg.bubble_radius / closest_dist
  let startI := roundC ((closest_idx : ℚ) - angle / cfg.angle_increment)
  let endI := roundC ((closest_idx : ℚ) + angle / cfg.angle_increment)
  let startN := (wrap64 startI).toNat
  let endN := (wrap64 endI).toNat
  let endC := if endN ≥ scan_ranges.length then scan_ranges.length - 1 else endN
  let startC := if startN < 0 then 0 else startN
  zeroIdx (fun i => decide (startC ≤ i ∧ i < endC)) 0 scan_ranges

/-- The rounded lower edge of the bubble window before its conversion to
`size_t`, i.e. the mathematical value of `round(closest_idx -
angle/angle_increment)` at planner.cpp:385. -/
def bubbleWindowStart (cfg : ScanCfg) (closest_idx : Nat) (closest_dist : ℚ) : Int :=
  roundC ((closest_idx : ℚ) - (cfg.bubble_radius / closest_dist) / cfg.angle_increment)

/-- The rounded upper edge of the bubble window before its conversion to
`size_t`, i.e. the mathematical value of `round(closest_idx +
angle/angle_increment)` at planner.cpp:386. -/
def bubbleWindowEnd (cfg : ScanCfg) (closest_idx : Nat) (closest_dist : ℚ) : Int :=
  roundC ((closest_idx : ℚ) + (cfg.bubble_radius / closest_dist) / cfg.angle_increment)

/-- Inner while of `findbestGapIdx` (planner.cpp:413-417): advance while
the current range exceeds the gap threshold, returning the index at
which the run stops. The remaining list is the suffix of the ranges from
the current index. -/
def innerGap (cfg : ScanCfg) : List ℚ → Nat → Nat
  | [], idx => idx
  | x :: xs, idx => if x > cfg.gap_threshold then innerGap cfg xs (idx + 1) else idx

/-- Fuel-indexed interpreter of the outer while of `findbestGapIdx`
(planner.cpp:408-424). Each outer iteration consumes one unit of fuel;
`none` means the fuel ran out. The source loop has no other exit, so a
state from which every fuel value yields `none` is a state on which the
source loop never terminates. -/
def gapLoop (cfg : ScanCfg) (rs : List ℚ) : Nat → Nat → List Int → Option (List Int)
  | 0, _, _ => none
  | fuel + 1, idx, acc =>
    if idx < rs.length then
      let nidx := innerGap cfg (rs.drop idx) idx
      let sz := nidx - idx
      let acc2 :=
        if ((sz : ℚ)) > cfg.gap_size_threshold then
          acc ++ [(((idx + idx + sz - 1) / 2 : Nat) : Int)]
        else acc
      gapLoop cfg rs fuel nidx acc2
    else some acc

/-- Embedding of `Planner::findbestGapIdx` (planner.cpp:399-429) with
explicit fuel for the outer loop. -/
def findbestGapIdx (cfg : ScanCfg) (rs : List ℚ) (fuel : Nat) : Option (List Int) :=
  gapLoop cfg rs fuel 0 []

/-- Steering-option update of `scanCallback` after the truncation window
is fixed (planner.cpp:207-239): filter the truncated ranges, find the
closest point, clear the safety bubble, search for gaps, and push each
accepted midpoint's heading `angle_increment * (best - size/2)` onto the
persistent member `steering_options_` (the subtraction is performed in
`size_t`, hence `wrap64`). The previous contents of `steering_options_`
are the `steering_options` argument; the member is never cleared. -/
def scanCallbackSteering (cfg : ScanCfg) (steering_options : List ℚ) (ranges : List RangeVal)
    (fuel : Nat) : Option (List ℚ) :=
  let sub := (ranges.drop cfg.start_idx).take (cfg.end_idx - cfg.start_idx)
  let filtered := sub.map (filterRange cfg.max_scan)
  let closest_idx := closestPoint filtered
  let closest_dist := filtered.getD closest_idx 0
  let cleared := eliminateBubble cfg filtered closest_idx closest_dist
  match findbestGapIdx cfg cleared fuel with
  | none => none
  | some best =>
      some (steering_options ++
        best.map (fun b => cfg.angle_increment * ((wrap64 (b - (filtered.length / 2 : Nat))) : ℚ)))

/-- Waypoint record loaded from the reference-path file. -/
structure Waypoint where
  x : ℚ
  y : ℚ
  heading : ℚ
  speed : ℚ

/-- Planar action of `tf2::doTransform` on a position, for a transform
whose rotation is a pure yaw: rotate by the yaw and translate. -/
def applyTf (tf : Tf) (x y : ℚ) : ℚ × ℚ :=
  (x * tf.c - y * tf.s + tf.tx, x * tf.s + y * tf.c + tf.ty)

/-- Modelled from the spec: `getMapIdx` is called at planner.cpp:470 but
its definition is absent from the repository sources. Following the
spec's cell-conversion rule, the map-frame point is converted to a cell
index via `(point - grid_origin) / resolution`, floored, and flattened
row-major. -/
def getMapIdx (cfg : GridCfg) (x y : ℚ) : Int :=
  ⌊(x - cfg.originX) / cfg.resolution⌋ + ⌊(y - cfg.originY) / cfg.resolution⌋ * cfg.width

/-- Comparison `diff < waypoint_d` where `waypoint_d` is initialized to
`std::numeric_limits<double>::max()`, modelled as `none`. -/
def ltOpt (d : ℚ) : Option ℚ → Bool
  | none => true
  | some w => decide (d < w)

/-- One iteration of the candidate loop of `findWaypoints`
(planner.cpp:450-475), acting on the pair
(`waypoint_d`, `waypoint_idx`). The transformed candidate pose is built
with `position.y` assigned from the waypoint's `x` field, exactly as at
planner.cpp:454; a candidate with negative transformed `x` is skipped;
otherwise `diff = |lookahead_d - sqrt(x² + y²)|` is compared against the
best so far, and an improving candidate whose map cell holds 100 is
skipped by `continue` without terminating the search. (The loop header
at planner.cpp:450 writes `i` where the body indexes with `j`; the body
indexes `global_path_[i][j]`, so the iteration is over `j`.) -/
def wpStep (sqrtF : ℚ → ℚ) (lookahead_d : ℚ) (cfg : GridCfg) (grid : Int → Int) (tf : Tf)
    (st : Option ℚ × Int) (j : Nat) (wp : Waypoint) : Option ℚ × Int :=
  let tp := applyTf tf wp.x wp.x
  if tp.1 < 0 then st
  else
    let d := sqrtF (tp.1 * tp.1 + tp.2 * tp.2)
    let diff := |lookahead_d - d|
    if ltOpt diff st.1 then
      if grid (getMapIdx cfg wp.x wp.y) = 100 then st
      else (some diff, (j : Int))
    else st

/-- Candidate loop of `findWaypoints` over one trajectory, carrying the
current candidate index `j` and the (`waypoint_d`, `waypoint_idx`)
state through `wpStep`. -/
def wpLoop (sqrtF : ℚ → ℚ) (lookahead_d : ℚ) (cfg : GridCfg) (grid : Int → Int) (tf : Tf) :
    List Waypoint → Nat → (Option ℚ × Int) → Option ℚ × Int
  | [], _, st => st
  | wp :: rest, j, st =>
      wpLoop sqrtF lookahead_d cfg grid tf rest (j + 1)
        (wpStep sqrtF lookahead_d cfg grid tf st j wp)

/-- Per-trajectory candidate search of `findWaypoints`: run of `wpLoop`
starting from (`waypoint_d = DBL_MAX`, `waypoint_idx = -1`), returning
the final `waypoint_idx`. The source then executes
`waypoints.push_back(global_path_[i][waypoint_idx])` with this value,
including when it is still `-1`. -/
def findWaypointIdx (sqrtF : ℚ → ℚ) (lookahead_d : ℚ) (cfg : GridCfg) (grid : Int → Int)
    (tf : Tf) (path : List Waypoint) : Int :=
  (wpLoop sqrtF lookahead_d cfg grid tf path 0 (none, -1)).2

/-- Embedding of `Planner::findWaypoints` (planner.cpp:431-481): the
index pushed for each reference trajectory. An entry of `-1` records
that the source indexes `global_path_[i][-1]`, out of bounds, instead of
contributing no waypoint. -/
def findWaypoints (sqrtF : ℚ → ℚ) (lookahead_d : ℚ) (cfg : GridCfg) (grid : Int → Int)
    (tf : Tf) (global_path : List (List Waypoint)) : List Int :=
  global_path.map (findWaypointIdx sqrtF lookahead_d cfg grid tf)

/-- State vector (x, y, heading) of the MPC model, nx = 3. -/
structure Vec3 where
  x : ℚ
  y : ℚ
  th : ℚ
deriving DecidableEq

/-- Input vector (velocity, steering) of the MPC model, nu = 2. -/
structure Vec2 where
  v : ℚ
  delta : ℚ
deriving DecidableEq

/-- Dense 3×3 matrix for the discrete state Jacobian Ad. -/
structure Mat3 where
  a11 : ℚ
  a12 : ℚ
  a13 : ℚ
  a21 : ℚ
  a22 : ℚ
  a23 : ℚ
  a31 : ℚ
  a32 : ℚ
  a33 : ℚ

/-- Dense 3×2 matrix for the discrete input Jacobian Bd. -/
structure Mat32 where
  b11 : ℚ
  b12 : ℚ
  b21 : ℚ
  b22 : ℚ
  b31 : ℚ
  b32 : ℚ

/-- Matrix-vector product `Ad · x`. -/
def mulM3 (A : Mat3) (p : Vec3) : Vec3 :=
  ⟨A.a11 * p.x + A.a12 * p.y + A.a13 * p.th,
   A.a21 * p.x + A.a22 * p.y + A.a23 * p.th,
   A.a31 * p.x + A.a32 * p.y + A.a33 * p.th⟩

/-- Matrix-vector product `Bd · u`. -/
def mulM32 (B : Mat32) (u : Vec2) : Vec3 :=
  ⟨B.b11 * u.v + B.b12 * u.delta,
   B.b21 * u.v + B.b22 * u.delta,
   B.b31 * u.v + B.b32 * u.delta⟩

/-- Componentwise vector sum. -/
def addV3 (a b : Vec3) : Vec3 := ⟨a.x + b.x, a.y + b.y, a.th + b.th⟩

/-- Componentwise vector difference. -/
def subV3 (a b : Vec3) : Vec3 := ⟨a.x - b.x, a.y - b.y, a.th - b.th⟩

/-- Modelled from the spec: the body of `MPC::propagate_Dynamics` is
absent from the repository (mpc_tracker.h:49 only declares it). Per the
spec's kinematic model, position advances by velocity along the heading
and the heading advances by `(v / L) tan δ` over one timestep `dt`.
The trigonometric functions are parameters standing for the math
library. -/
def propagate_Dynamics (cosF sinF tanF : ℚ → ℚ) (L dt : ℚ) (state : Vec3) (input : Vec2) :
    Vec3 :=
  ⟨state.x + input.v * cosF state.th * dt,
   state.y + input.v * sinF state.th * dt,
   state.th + (input.v / L) * tanF input.delta * dt⟩

/-- Modelled from the spec: the body of `MPC::get_linear_dynamics` is
absent from the repository (mpc_tracker.h:50 only declares it). Per the
spec, Ad and Bd are the discrete-time Jacobians of the motion model at
the operating point (with `∂(tan δ)/∂δ` written `1 + tan² δ`), and the
affine residual is `hd = f(x_op, u_op) - Ad·x_op - Bd·u_op`. -/
def get_linear_dynamics (cosF sinF tanF : ℚ → ℚ) (L dt : ℚ) (x_op : Vec3) (u_op : Vec2) :
    Mat3 × Mat32 × Vec3 :=
  let Ad : Mat3 :=
    ⟨1, 0, -(u_op.v) * sinF x_op.th * dt,
     0, 1, u_op.v * cosF x_op.th * dt,
     0, 0, 1⟩
  let Bd : Mat32 :=
    ⟨cosF x_op.th * dt, 0,
     sinF x_op.th * dt, 0,
     tanF u_op.delta * dt / L, (u_op.v * dt / L) * (1 + tanF u_op.delta * tanF u_op.delta)⟩
  let hd := subV3 (subV3 (propagate_Dynamics cosF sinF tanF L dt x_op u_op) (mulM3 Ad x_op))
    (mulM32 Bd u_op)
  (Ad, Bd, hd)

/-- Concrete fixture: 10×10 grid at the origin, resolution 1, inflation
radius 1 cell. -/
def gridCfg10 : GridCfg := ⟨10, 10, 0, 0, 1, 1⟩

/-- Concrete fixture: identity transform (yaw 0, zero translation). -/
def tfId : Tf := ⟨1, 0, 0, 0⟩

/-- Concrete fixture: pure yaw of 90 degrees (cos 0, sin 1), zero
translation. -/
def tfYaw90 : Tf := ⟨0, 1, 0, 0⟩

/-- Concrete stand-in for the cosine library call, constantly 1. -/
def cosOne : ℚ → ℚ := fun _ => 1

/-- Concrete stand-in for the sine library call, constantly 0. -/
def sinZero : ℚ → ℚ := fun _ => 0

/-- Concrete fixture: six finite readings of 1/2 m. -/
def scanHalf : Scan := ⟨List.replicate 6 (RangeVal.val (1/2)), 0, 1⟩

/-- Concrete fixture: six finite readings of 2 m. -/
def scanTwo : Scan := ⟨List.replicate 6 (RangeVal.val 2), 0, 1⟩

/-- Concrete fixture: a scan with no readings at all. -/
def scanEmpty : Scan := ⟨[], 0, 1⟩

/-- Concrete fixture: gap threshold 1/2 so that a range of 0 is blocked;
minimum gap size 1. -/
def blockedCfg : ScanCfg := ⟨1, 1, 1/2, 1, 0, 1, 10⟩

/-- Concrete fixture: bubble radius 1, unit angle increment, gap
threshold 1, minimum gap size 2, truncation window [0, 5), max range
10. -/
def bubbleCfg : ScanCfg := ⟨1, 1, 1, 2, 0, 5, 10⟩

/-- Concrete fixture: a waypoint one metre behind the vehicle. -/
def wpBehind : Waypoint := ⟨-1, 0, 0, 0⟩

/-- Concrete fixture: a waypoint at map position (1, -1), which sits in
front of a vehicle whose map-to-laser transform is a 90-degree yaw. -/
def wpFront : Waypoint := ⟨1, -1, 0, 0⟩

/-- Concrete fixture: an entirely FREE occupancy valuation. -/
def gridFree : Int → Int := fun _ => 0

/-! ## Helper lemmas -/

/-- Marking never removes entries from `new_obstacles_`. -/
theorem mem_markAll_pending (l : List Int) (gp : (Int → Int) × List Int) (c : Int)
    (h : c ∈ gp.2) : c ∈ (markAll gp l).2 := by
  induction l generalizing gp with
  | nil => exact h
  | cons i t ih =>
      have hstep : c ∈ (markCell gp i).2 := by
        by_cases h100 : gp.1 i = 100
        · simpa [markCell, h100] using h
        · simp only [markCell, h100, ne_eq, not_false_iff, if_pos]
          exact List.mem_append_left _ h
      exact ih (markCell gp i) hstep

/-- Marking writes only the value 100, so a cell already at 100 stays
at 100. -/
theorem markAll_grid_preserves_100 (l : List Int) (gp : (Int → Int) × List Int) (c : Int)
    (h : gp.1 c = 100) : (markAll gp l).1 c = 100 := by
  induction l generalizing gp with
  | nil => exact h
  | cons i t ih =>
      have hstep : (markCell gp i).1 c = 100 := by
        by_cases h100 : gp.1 i = 100
        · simpa [markCell, h100] using h
        · simp only [markCell, h100, ne_eq, not_false_iff, if_pos]
          by_cases hci : c = i
          · simp [updateF, hci]
          · simpa [updateF, hci] using h
      exact ih (markCell gp i) hstep

/-- Every cell index processed by the marking loop holds 100
afterwards. -/
theorem markAll_grid_100_of_mem (l : List Int) (gp : (Int → Int) × List Int) (c : Int)
    (h : c ∈ l) : (markAll gp l).1 c = 100 := by
  induction l generalizing gp with
  | nil => cases h
  | cons i t ih =>
      rcases List.mem_cons.mp h with hci | hct
      · subst hci
        have hstep : (markCell gp c).1 c = 100 := by
          by_cases h100 : gp.1 c = 100
          · simp [markCell, h100]
          · simp only [markCell, h100, ne_eq, not_false_iff, if_pos]
            simp [updateF]
        exact markAll_grid_preserves_100 t (markCell gp c) c hstep
      · exact ih (markCell gp i) hct

/-- Value of the grid after the decay reset loop: 0 on every recorded
index, unchanged elsewhere. -/
theorem resetAll_apply (l : List Int) (g : Int → Int) (c : Int) :
    resetAll g l c = if c ∈ l then 0 else g c := by
  induction l generalizing g with
  | nil => simp [resetAll]
  | cons i t ih =>
      have hstep : resetAll g (i :: t) = resetAll (updateF g i 0) t := rfl
      rw [hstep, ih]
      by_cases hct : c ∈ t
      · simp [hct]
      · by_cases hci : c = i
        · simp [hct, hci, updateF]
        · simp [hct, hci, updateF]

/-- Each call of `updateStaticMap` publishes exactly the grid it ends
the cycle with. -/
theorem updateStaticMap_publishes_grid (cfg : GridCfg) (cosF sinF : ℚ → ℚ)
    (lookup : Option Tf) (prevTf : Tf) (scan : Scan) (st : MapState) :
    (updateStaticMap cfg cosF sinF lookup prevTf scan st).published
      = some (updateStaticMap cfg cosF sinF lookup prevTf scan st).grid := by
  by_cases h : st.counter + 1 > 50 <;> simp [updateStaticMap, h]

/-- Characterization of an update on which the decay fires. -/
theorem updateStaticMap_decay_eq (cfg : GridCfg) (cosF sinF : ℚ → ℚ) (lookup : Option Tf)
    (prevTf : Tf) (scan : Scan) (st : MapState) (h : st.counter + 1 > 50) :
    updateStaticMap cfg cosF sinF lookup prevTf scan st =
      ⟨resetAll
          (markAll (st.grid, st.pending)
            (scanHitCells cfg cosF sinF (lookup.getD prevTf) scan)).1
          (markAll (st.grid, st.pending)
            (scanHitCells cfg cosF sinF (lookup.getD prevTf) scan)).2,
        [], 0, lookup.getD prevTf,
        some (resetAll
          (markAll (st.grid, st.pending)
            (scanHitCells cfg cosF sinF (lookup.getD prevTf) scan)).1
          (markAll (st.grid, st.pending)
            (scanHitCells cfg cosF sinF (lookup.getD prevTf) scan)).2)⟩ := by
  simp only [updateStaticMap, h, if_pos]

/-- Characterization of an update on which the decay does not fire. -/
theorem updateStaticMap_no_decay_eq (cfg : GridCfg) (cosF sinF : ℚ → ℚ) (lookup : Option Tf)
    (prevTf : Tf) (scan : Scan) (st : MapState) (h : ¬ (st.counter + 1 > 50)) :
    updateStaticMap cfg cosF sinF lookup prevTf scan st =
      ⟨(markAll (st.grid, st.pending)
          (scanHitCells cfg cosF sinF (lookup.getD prevTf) scan)).1,
        (markAll (st.grid, st.pending)
          (scanHitCells cfg cosF sinF (lookup.getD prevTf) scan)).2,
        st.counter + 1, lookup.getD prevTf,
        some (markAll (st.grid, st.pending)
          (scanHitCells cfg cosF sinF (lookup.getD prevTf) scan)).1⟩ := by
  simp only [updateStaticMap, h, if_neg, ite_false]

/-- One blocked entry freezes the outer gap loop: from index 0 on the
ranges `[0]`, one more unit of fuel makes no progress. -/
theorem gapLoop_blocked_step (n : Nat) (acc : List Int) :
    gapLoop blockedCfg [0] (n + 1) 0 acc = gapLoop blockedCfg [0] n 0 acc := by
  simp only [gapLoop]
  norm_num [innerGap, blockedCfg]

/-- The stuck state consumes all fuel without producing a result. -/
theorem gapLoop_blocked_none (fuel : Nat) (acc : List Int) :
    gapLoop blockedCfg [0] fuel 0 acc = none := by
  induction fuel with
  | zero => rfl
  | succ n ih => rw [gapLoop_blocked_step, ih]

/-- Pointwise description of the zeroing loop. -/
theorem zeroIdx_getD (p : Nat → Bool) (k j : Nat) (l : List ℚ) (hj : j < l.length) :
    (zeroIdx p k l).getD j 0 = if p (k + j) then 0 else l.getD j 0 := by
  induction l generalizing k j with
  | nil => simp at hj
  | cons x xs ih =>
      cases j with
      | zero => simp [zeroIdx]
      | succ m =>
          have hm : m < xs.length := by simpa using hj
          have hk : k + 1 + m = k + (m + 1) := by omega
          simp only [zeroIdx, List.getD_cons_succ]
          rw [ih (k + 1) m hm, hk]

/-! ## Claim theorems -/

/-- C1: the claim says every computed cell index is clamped to
`[0, width*height)` and out-of-range indices are discarded without
marking. The code does neither: for a hit at map point (1/2, 0) on the
10×10 grid, `expandObstacles` emits index −11, which violates the
claimed bound, and `updateStaticMap` then marks that out-of-range index
OCCUPIED. -/
theorem expandObstacles_marks_out_of_bounds :
    (-11 : Int) ∈ expandObstacles gridCfg10 (1/2) 0 ∧
    ¬ ((0 : Int) ≤ -11 ∧ (-11 : Int) < gridCfg10.width * gridCfg10.height) ∧
    (updateStaticMap gridCfg10 cosOne sinZero (some tfId) tfId scanHalf
      ⟨gridFree, [], 0⟩).grid (-11) = 100 :=
  ⟨by norm_num [expandObstacles, intRange, intRangeGo, truncQ, gridCfg10],
   by norm_num [gridCfg10],
   by norm_num [updateStaticMap, scanHitCells, hitCells, hitPointCells, expandObstacles,
     intRange, intRangeGo, truncQ, markAll, markCell, updateF, gridFree, cosOne, sinZero,
     tfId, gridCfg10, scanHalf, List.replicate]⟩

/-- C2: the claim says the gap search terminates after a single bounded
pass even when some range is at or below the gap threshold. It does
not: on the all-blocked filtered scan `[0]` (gap threshold 1/2) the
inner while exits without advancing the index, the outer while repeats
the same state forever, and no amount of fuel lets the fueled
interpreter of the source loop return. -/
theorem findbestGapIdx_diverges_on_blocked_scan :
    ∀ fuel : Nat, findbestGapIdx blockedCfg [0] fuel = none :=
  fun fuel => gapLoop_blocked_none fuel []

/-- C3: the claim says a trajectory with no admissible candidate
contributes no waypoint and the selector returns "infeasible". Instead,
for a single trajectory whose only waypoint lies behind the vehicle,
`waypoint_idx` remains −1 and the source executes
`waypoints.push_back(global_path_[i][-1])` — an out-of-bounds access,
recorded here as the selected index −1, which is not a valid position
of the one-element trajectory. -/
theorem findWaypoints_no_admissible_gives_negative_index :
    ∀ sqrtF : ℚ → ℚ,
      findWaypoints sqrtF 1 gridCfg10 gridFree tfId [[wpBehind]] = [-1] ∧
      (-1 : Int) < 0 :=
  fun _ =>
    ⟨by norm_num [findWaypoints, findWaypointIdx, wpLoop, wpStep, applyTf, tfId,
       wpBehind], by decide⟩

/-- C4: the claim says each waypoint's position (x, y) is transformed
into the vehicle frame. The code builds the candidate pose with
`position.y` assigned from the waypoint's `x` field (planner.cpp:454):
under a 90-degree yaw transform the waypoint (1, −1), whose true
vehicle-frame position is (1, 1) (longitudinal coordinate +1, i.e. in
front and, with a FREE grid, the claimed selection), is transformed as
(1, 1) ↦ (−1, 1) and discarded as behind the vehicle, leaving the
index at −1. -/
theorem findWaypoints_uses_x_for_y_discards_front_waypoint :
    ∀ sqrtF : ℚ → ℚ,
      findWaypointIdx sqrtF 1 gridCfg10 gridFree tfYaw90 [wpFront] = -1 ∧
      applyTf tfYaw90 wpFront.x wpFront.y = (1, 1) :=
  fun _ =>
    ⟨by norm_num [findWaypointIdx, wpLoop, wpStep, applyTf, tfYaw90, wpFront],
     by norm_num [applyTf, tfYaw90, wpFront, Prod.ext_iff]⟩

/-- C5 counterexample: the claim says that when the transform lookup
fails the update cycle is skipped — no marking, no counter advance, no
publication. In the code the catch block only logs and sleeps: with a
failed lookup (`none`) and an empty scan, the decay counter still
advances from 17 to 18 and a grid is still published that cycle. -/
theorem updateStaticMap_lookup_failure_not_skipped :
    (updateStaticMap gridCfg10 cosOne sinZero none tfId scanEmpty
      ⟨gridFree, [], 17⟩).counter = 18 ∧
    (updateStaticMap gridCfg10 cosOne sinZero none tfId scanEmpty
      ⟨gridFree, [], 17⟩).published.isSome = true :=
  ⟨by norm_num [updateStaticMap, scanHitCells, hitCells, markAll, scanEmpty],
   by norm_num [updateStaticMap, scanHitCells, hitCells, markAll, scanEmpty]⟩

/-- C5 as amended: on a failed lookup the previous transform is
retained and the failure logged, but the cycle is not skipped — the
update behaves exactly as if the lookup had returned the previous
transform, and it still publishes a grid. -/
theorem updateStaticMap_lookup_failure_continues_with_previous_tf
    (cfg : GridCfg) (cosF sinF : ℚ → ℚ) (prevTf : Tf) (scan : Scan) (st : MapState) :
    updateStaticMap cfg cosF sinF none prevTf scan st
      = updateStaticMap cfg cosF sinF (some prevTf) prevTf scan st ∧
    (updateStaticMap cfg cosF sinF none prevTf scan st).published.isSome = true := by
  refine ⟨rfl, ?_⟩
  rw [updateStaticMap_publishes_grid]
  rfl

/-- C6: affine reconstruction identity of the MPC linearization. For
every operating point and timestep, `Ad·x_op + Bd·u_op + hd` equals
`propagate_Dynamics x_op u_op dt` exactly, because `hd` is defined as
the affine residual of the propagation at the operating point. -/
theorem get_linear_dynamics_affine_reconstruction
    (cosF sinF tanF : ℚ → ℚ) (L dt : ℚ) (x_op : Vec3) (u_op : Vec2) :
    addV3 (addV3 (mulM3 (get_linear_dynamics cosF sinF tanF L dt x_op u_op).1 x_op)
        (mulM32 (get_linear_dynamics cosF sinF tanF L dt x_op u_op).2.1 u_op))
      (get_linear_dynamics cosF sinF tanF L dt x_op u_op).2.2
      = propagate_Dynamics cosF sinF tanF L dt x_op u_op := by
  cases x_op
  cases u_op
  simp only [get_linear_dynamics, propagate_Dynamics, addV3, subV3, mulM3, mulM32,
    Vec3.mk.injEq]
  refine ⟨by ring, by ring, by ring⟩

/-- C7 counterexample: the claim says exactly the entries of the
half-width window centred on the closest index, clamped to the array
bounds, are zeroed, with indices below 0 discarded without effect. Both
clauses fail on the code (bubble radius 1, unit angle increment,
closest distance 1, so half-width 1 index). First input, ranges
[5, 1, 5] with closest index 1: the claimed result is [0, 0, 0], but
the code zeroes only the half-open interval [0, 2) and leaves the upper
endpoint untouched, giving [0, 0, 5]. Second input, ranges [1, 5, 5]
with closest index 0: the window extends below index 0, the claim
demands the in-bounds part {0, 1} zeroed ([0, 0, 5]), but the negative
loop start converts to a huge `size_t` value and the code zeroes
nothing, giving [1, 5, 5]. -/
theorem eliminateBubble_window_upper_endpoint_not_zeroed :
    (eliminateBubble bubbleCfg [5, 1, 5] 1 1 = [0, 0, 5] ∧
     ([0, 0, 5] : List ℚ) ≠ [0, 0, 0]) ∧
    (eliminateBubble bubbleCfg [1, 5, 5] 0 1 = [1, 5, 5] ∧
     ([1, 5, 5] : List ℚ) ≠ [0, 0, 5]) :=
  ⟨⟨by norm_num [eliminateBubble, roundC, wrap64, zeroIdx, bubbleCfg],
    by norm_num⟩,
   ⟨by norm_num [eliminateBubble, roundC, wrap64, zeroIdx, bubbleCfg],
    by norm_num⟩⟩

/-- C7 as amended: write `start = round(i - w)` and `end = round(i + w)`
for the rounded window edges at half-width
`w = (bubble_radius / d) / angle_increment`. When `start >= 0`, the
bubble elimination zeroes exactly the half-open window
`[start, min(end, size - 1))`: the upper endpoint of the claimed
symmetric window is excluded and, because the upper bound is clamped to
`size - 1` and the loop end is exclusive, the last array entry is never
zeroed; entries outside the window are unchanged. When `start < 0`, the
claimed discarding of below-zero indices does not happen: the negative
start converts to a huge unsigned index and no entry is zeroed at all.
The side conditions only bound the window edges by the `size_t` modulus,
far beyond any real scan, and within these limits the window width still
scales inversely with the closest distance. -/
theorem eliminateBubble_zeroes_halfopen_window
    (cfg : ScanCfg) (scan_ranges : List ℚ) (closest_idx : Nat) (closest_dist : ℚ) (j : Nat)
    (hse : bubbleWindowStart cfg closest_idx closest_dist
        ≤ bubbleWindowEnd cfg closest_idx closest_dist)
    (h0e : 0 ≤ bubbleWindowEnd cfg closest_idx closest_dist)
    (he64 : bubbleWindowEnd cfg closest_idx closest_dist < 2 ^ 64)
    (hlen : (scan_ranges.length : Int)
        ≤ 2 ^ 64 + bubbleWindowStart cfg closest_idx closest_dist)
    (hj : j < scan_ranges.length) :
    (eliminateBubble cfg scan_ranges closest_idx closest_dist).getD j 0 =
      if 0 ≤ bubbleWindowStart cfg closest_idx closest_dist ∧
          (bubbleWindowStart cfg closest_idx closest_dist).toNat ≤ j ∧
          j < min (bubbleWindowEnd cfg closest_idx closest_dist).toNat
            (scan_ranges.length - 1)
      then 0 else scan_ranges.getD j 0 := by
  simp only [bubbleWindowStart, bubbleWindowEnd] at hse h0e he64 hlen ⊢
  simp only [eliminateBubble]
  rw [zeroIdx_getD _ 0 j _ hj]
  simp only [Nat.zero_add, decide_eq_true_eq, wrap64]
  split_ifs <;> first | rfl | (exfalso; omega)

/-- C7 witness: two concrete instances of the amended window
description. At ranges [5, 9, 9, 9, 5], closest index 2, distance 1,
the window is [1, 3) and the entry at index 3 (the claimed upper
endpoint) is left at 9. At ranges [1, 5, 5], closest index 0,
distance 1, the window starts at -1, so nothing is zeroed and entry 0
keeps its value 1. -/
theorem eliminateBubble_zeroes_halfopen_window_witness :
    (bubbleWindowStart bubbleCfg 2 1 ≤ bubbleWindowEnd bubbleCfg 2 1) ∧
    (0 ≤ bubbleWindowEnd bubbleCfg 2 1) ∧
    (bubbleWindowEnd bubbleCfg 2 1 < 2 ^ 64) ∧
    ((([5, 9, 9, 9, 5] : List ℚ).length : Int)
        ≤ 2 ^ 64 + bubbleWindowStart bubbleCfg 2 1) ∧
    (3 < ([5, 9, 9, 9, 5] : List ℚ).length) ∧
    ((eliminateBubble bubbleCfg [5, 9, 9, 9, 5] 2 1).getD 3 0 =
      if 0 ≤ bubbleWindowStart bubbleCfg 2 1 ∧
          (bubbleWindowStart bubbleCfg 2 1).toNat ≤ 3 ∧
          3 < min (bubbleWindowEnd bubbleCfg 2 1).toNat
            (([5, 9, 9, 9, 5] : List ℚ).length - 1)
      then 0 else ([5, 9, 9, 9, 5] : List ℚ).getD 3 0) ∧
    (bubbleWindowStart bubbleCfg 0 1 ≤ bubbleWindowEnd bubbleCfg 0 1) ∧
    (0 ≤ bubbleWindowEnd bubbleCfg 0 1) ∧
    (bubbleWindowEnd bubbleCfg 0 1 < 2 ^ 64) ∧
    ((([1, 5, 5] : List ℚ).length : Int)
        ≤ 2 ^ 64 + bubbleWindowStart bubbleCfg 0 1) ∧
    (0 < ([1, 5, 5] : List ℚ).length) ∧
    ((eliminateBubble bubbleCfg [1, 5, 5] 0 1).getD 0 0 =
      if 0 ≤ bubbleWindowStart bubbleCfg 0 1 ∧
          (bubbleWindowStart bubbleCfg 0 1).toNat ≤ 0 ∧
          0 < min (bubbleWindowEnd bubbleCfg 0 1).toNat
            (([1, 5, 5] : List ℚ).length - 1)
      then 0 else ([1, 5, 5] : List ℚ).getD 0 0) :=
  ⟨by norm_num [bubbleWindowStart, bubbleWindowEnd, roundC, bubbleCfg],
   by norm_num [bubbleWindowStart, bubbleWindowEnd, roundC, bubbleCfg],
   by norm_num [bubbleWindowStart, bubbleWindowEnd, roundC, bubbleCfg],
   by norm_num [bubbleWindowStart, bubbleWindowEnd, roundC, bubbleCfg],
   by norm_num,
   eliminateBubble_zeroes_halfopen_window bubbleCfg [5, 9, 9, 9, 5] 2 1 3
     (by norm_num [bubbleWindowStart, bubbleWindowEnd, roundC, bubbleCfg])
     (by norm_num [bubbleWindowStart, bubbleWindowEnd, roundC, bubbleCfg])
     (by norm_num [bubbleWindowStart, bubbleWindowEnd, roundC, bubbleCfg])
     (by norm_num [bubbleWindowStart, bubbleWindowEnd, roundC, bubbleCfg])
     (by norm_num),
   by norm_num [bubbleWindowStart, bubbleWindowEnd, roundC, bubbleCfg],
   by norm_num [bubbleWindowStart, bubbleWindowEnd, roundC, bubbleCfg],
   by norm_num [bubbleWindowStart, bubbleWindowEnd, roundC, bubbleCfg],
   by norm_num [bubbleWindowStart, bubbleWindowEnd, roundC, bubbleCfg],
   by norm_num,
   eliminateBubble_zeroes_halfopen_window bubbleCfg [1, 5, 5] 0 1 0
     (by norm_num [bubbleWindowStart, bubbleWindowEnd, roundC, bubbleCfg])
     (by norm_num [bubbleWindowStart, bubbleWindowEnd, roundC, bubbleCfg])
     (by norm_num [bubbleWindowStart, bubbleWindowEnd, roundC, bubbleCfg])
     (by norm_num [bubbleWindowStart, bubbleWindowEnd, roundC, bubbleCfg])
     (by norm_num)⟩

/-- C8: at a decay boundary (counter at or above 50 before the update)
every cell recorded in `new_obstacles_` since the last decay is reset
to FREE, the set is cleared, and the counter returns to zero — in
particular a recorded cell that received no further hits returns to
FREE after the threshold number of updates. -/
theorem updateStaticMap_decay_resets_pending_to_free
    (cfg : GridCfg) (cosF sinF : ℚ → ℚ) (lookup : Option Tf) (prevTf : Tf) (scan : Scan)
    (g : Int → Int) (p : List Int) (counter : Int) (c : Int)
    (hc : c ∈ p) (h50 : 50 ≤ counter) :
    (updateStaticMap cfg cosF sinF lookup prevTf scan ⟨g, p, counter⟩).grid c = 0 ∧
    (updateStaticMap cfg cosF sinF lookup prevTf scan ⟨g, p, counter⟩).pending = [] ∧
    (updateStaticMap cfg cosF sinF lookup prevTf scan ⟨g, p, counter⟩).counter = 0 := by
  have hgt : (⟨g, p, counter⟩ : MapState).counter + 1 > 50 := by
    show counter + 1 > 50
    omega
  have hmem : c ∈ (markAll (g, p)
      (scanHitCells cfg cosF sinF (lookup.getD prevTf) scan)).2 :=
    mem_markAll_pending _ _ _ hc
  rw [updateStaticMap_decay_eq cfg cosF sinF lookup prevTf scan _ hgt]
  refine ⟨?_, rfl, rfl⟩
  dsimp only
  rw [resetAll_apply, if_pos hmem]

/-- C8 witness: cell 3 is pending with the counter at the threshold; an
empty scan (no further hits) decays it back to FREE and resets the
bookkeeping. -/
theorem updateStaticMap_decay_resets_pending_to_free_witness :
    ((3 : Int) ∈ [(3 : Int)]) ∧ ((50 : Int) ≤ 50) ∧
    ((updateStaticMap gridCfg10 cosOne sinZero none tfId scanEmpty
        ⟨gridFree, [3], 50⟩).grid 3 = 0 ∧
     (updateStaticMap gridCfg10 cosOne sinZero none tfId scanEmpty
        ⟨gridFree, [3], 50⟩).pending = [] ∧
     (updateStaticMap gridCfg10 cosOne sinZero none tfId scanEmpty
        ⟨gridFree, [3], 50⟩).counter = 0) :=
  ⟨by decide, by decide,
   updateStaticMap_decay_resets_pending_to_free gridCfg10 cosOne sinZero none tfId scanEmpty
     gridFree [3] 50 3 (by decide) (by decide)⟩

/-- C9: the claim says the Gap-Follower's candidate set is cycle-scoped
and never carries over entries from previous scan callbacks. The code
pushes onto the persistent member `steering_options_` without clearing
it: for every previous contents `prev`, the post-callback contents on a
fully open five-element scan are `prev ++ [0]` — the previous cycles'
candidates are all retained. -/
theorem scanCallback_steering_options_carry_over :
    ∀ prev : List ℚ,
      scanCallbackSteering bubbleCfg prev (List.replicate 5 (RangeVal.val 5)) 3
        = some (prev ++ [0]) := by
  intro prev
  norm_num [scanCallbackSteering, filterRange, closestPoint, closestPointAux,
    eliminateBubble, roundC, wrap64, zeroIdx, findbestGapIdx, gapLoop, innerGap,
    bubbleCfg, List.replicate]

/-- C10: at a decay boundary the decay is applied after the cycle's
marking and before publication: every pending cell — even one re-marked
by this very scan — is published FREE that cycle, and a cell hit again
by the next scan is re-marked OCCUPIED and published as 100 on the next
cycle. -/
theorem updateStaticMap_decay_publishes_free_then_remarks
    (cfg : GridCfg) (cosF sinF : ℚ → ℚ) (tf1 tf2 prevTf : Tf) (scan1 scan2 : Scan)
    (g : Int → Int) (p : List Int) (counter : Int) (c : Int)
    (hc : c ∈ p) (h50 : 50 ≤ counter)
    (hm : c ∈ scanHitCells cfg cosF sinF tf2 scan2) :
    (updateStaticMap cfg cosF sinF (some tf1) prevTf scan1 ⟨g, p, counter⟩).published
      = some (updateStaticMap cfg cosF sinF (some tf1) prevTf scan1 ⟨g, p, counter⟩).grid ∧
    (updateStaticMap cfg cosF sinF (some tf1) prevTf scan1 ⟨g, p, counter⟩).grid c = 0 ∧
    (updateStaticMap cfg cosF sinF (some tf1) prevTf scan1 ⟨g, p, counter⟩).counter = 0 ∧
    (updateStaticMap cfg cosF sinF (some tf2)
      (updateStaticMap cfg cosF sinF (some tf1) prevTf scan1 ⟨g, p, counter⟩).tf scan2
      ⟨(updateStaticMap cfg cosF sinF (some tf1) prevTf scan1 ⟨g, p, counter⟩).grid,
       (updateStaticMap cfg cosF sinF (some tf1) prevTf scan1 ⟨g, p, counter⟩).pending,
       (updateStaticMap cfg cosF sinF (some tf1) prevTf scan1 ⟨g, p, counter⟩).counter⟩).grid c
      = 100 ∧
    (updateStaticMap cfg cosF sinF (some tf2)
      (updateStaticMap cfg cosF sinF (some tf1) prevTf scan1 ⟨g, p, counter⟩).tf scan2
      ⟨(updateStaticMap cfg cosF sinF (some tf1) prevTf scan1 ⟨g, p, counter⟩).grid,
       (updateStaticMap cfg cosF sinF (some tf1) prevTf scan1 ⟨g, p, counter⟩).pending,
       (updateStaticMap cfg cosF sinF (some tf1) prevTf scan1 ⟨g, p, counter⟩).counter⟩).published
      = some (updateStaticMap cfg cosF sinF (some tf2)
      (updateStaticMap cfg cosF sinF (some tf1) prevTf scan1 ⟨g, p, counter⟩).tf scan2
      ⟨(updateStaticMap cfg cosF sinF (some tf1) prevTf scan1 ⟨g, p, counter⟩).grid,
       (updateStaticMap cfg cosF sinF (some tf1) prevTf scan1 ⟨g, p, counter⟩).pending,
       (updateStaticMap cfg cosF sinF (some tf1) prevTf scan1 ⟨g, p, counter⟩).counter⟩).grid := by
  have h1 := updateStaticMap_decay_resets_pending_to_free cfg cosF sinF (some tf1) prevTf
    scan1 g p counter c hc h50
  refine ⟨updateStaticMap_publishes_grid _ _ _ _ _ _ _, h1.1, h1.2.2, ?_, ?_⟩
  · have hngt : ¬ ((⟨(updateStaticMap cfg cosF sinF (some tf1) prevTf scan1
          ⟨g, p, counter⟩).grid,
        (updateStaticMap cfg cosF sinF (some tf1) prevTf scan1 ⟨g, p, counter⟩).pending,
        (updateStaticMap cfg cosF sinF (some tf1) prevTf scan1 ⟨g, p, counter⟩).counter⟩
          : MapState).counter + 1 > 50) := by
      show ¬ ((updateStaticMap cfg cosF sinF (some tf1) prevTf scan1
        ⟨g, p, counter⟩).counter + 1 > 50)
      rw [h1.2.2]
      omega
    rw [updateStaticMap_no_decay_eq _ _ _ _ _ _ _ hngt]
    exact markAll_grid_100_of_mem _ _ _ (by simpa using hm)
  · exact updateStaticMap_publishes_grid _ _ _ _ _ _ _

/-- C10 witness: cell 1 is pending at the decay boundary; the first
(empty) update publishes it FREE, and the next scan of six 2 m readings
re-marks it, so the second update publishes it OCCUPIED again. -/
theorem updateStaticMap_decay_publishes_free_then_remarks_witness :
    ((1 : Int) ∈ [(1 : Int)]) ∧ ((50 : Int) ≤ 50) ∧
    ((1 : Int) ∈ scanHitCells gridCfg10 cosOne sinZero tfId scanTwo) ∧
    ((updateStaticMap gridCfg10 cosOne sinZero (some tfId) tfId scanEmpty
        ⟨gridFree, [1], 50⟩).published
      = some (updateStaticMap gridCfg10 cosOne sinZero (some tfId) tfId scanEmpty
        ⟨gridFree, [1], 50⟩).grid ∧
     (updateStaticMap gridCfg10 cosOne sinZero (some tfId) tfId scanEmpty
        ⟨gridFree, [1], 50⟩).grid 1 = 0 ∧
     (updateStaticMap gridCfg10 cosOne sinZero (some tfId) tfId scanEmpty
        ⟨gridFree, [1], 50⟩).counter = 0 ∧
     (updateStaticMap gridCfg10 cosOne sinZero (some tfId)
       (updateStaticMap gridCfg10 cosOne sinZero (some tfId) tfId scanEmpty
         ⟨gridFree, [1], 50⟩).tf scanTwo
       ⟨(updateStaticMap gridCfg10 cosOne sinZero (some tfId) tfId scanEmpty
          ⟨gridFree, [1], 50⟩).grid,
        (updateStaticMap gridCfg10 cosOne sinZero (some tfId) tfId scanEmpty
          ⟨gridFree, [1], 50⟩).pending,
        (updateStaticMap gridCfg10 cosOne sinZero (some tfId) tfId scanEmpty
          ⟨gridFree, [1], 50⟩).counter⟩).grid 1 = 100 ∧
     (updateStaticMap gridCfg10 cosOne sinZero (some tfId)
       (updateStaticMap gridCfg10 cosOne sinZero (some tfId) tfId scanEmpty
         ⟨gridFree, [1], 50⟩).tf scanTwo
       ⟨(updateStaticMap gridCfg10 cosOne sinZero (some tfId) tfId scanEmpty
          ⟨gridFree, [1], 50⟩).grid,
        (updateStaticMap gridCfg10 cosOne sinZero (some tfId) tfId scanEmpty
          ⟨gridFree, [1], 50⟩).pending,
        (updateStaticMap gridCfg10 cosOne sinZero (some tfId) tfId scanEmpty
          ⟨gridFree, [1], 50⟩).counter⟩).published
      = some (updateStaticMap gridCfg10 cosOne sinZero (some tfId)
       (updateStaticMap gridCfg10 cosOne sinZero (some tfId) tfId scanEmpty
         ⟨gridFree, [1], 50⟩).tf scanTwo
       ⟨(updateStaticMap gridCfg10 cosOne sinZero (some tfId) tfId scanEmpty
          ⟨gridFree, [1], 50⟩).grid,
        (updateStaticMap gridCfg10 cosOne sinZero (some tfId) tfId scanEmpty
          ⟨gridFree, [1], 50⟩).pending,
        (updateStaticMap gridCfg10 cosOne sinZero (some tfId) tfId scanEmpty
          ⟨gridFree, [1], 50⟩).counter⟩).grid) :=
  ⟨by decide, by decide,
   by norm_num [scanHitCells, hitCells, hitPointCells, expandObstacles, intRange,
     intRangeGo, truncQ, cosOne, sinZero, tfId, gridCfg10, scanTwo, List.replicate],
   updateStaticMap_decay_publishes_free_then_remarks gridCfg10 cosOne sinZero tfId tfId tfId
     scanEmpty scanTwo gridFree [1] 50 1 (by decide) (by decide)
     (by norm_num [scanHitCells, hitCells, hitPointCells, expandObstacles, intRange,
       intRangeGo, truncQ, cosOne, sinZero, tfId, gridCfg10, scanTwo, List.replicate])⟩
